import Mathlib

/-
Shallow embedding of the fecs entity-component storage core
(src/include/fecs/concepts.hpp, vector_store.hpp, unordered_map_store.hpp,
world.hpp) together with theorems settling the frozen claims about it.

Machine integers: EntityId is std::size_t; no arithmetic in the core ever
nears 2^64 (ids only grow by +1 per newEntity call), so it is modelled as Nat.
-/

namespace fecs

/-- EntityId is a type alias for std::size_t (concepts.hpp line 6). -/
abbrev EntityId := Nat

/-- Outcome of evaluating a C++ accessor expression that can throw or hit
undefined behavior: either a value, a thrown std::out_of_range (the only
exception the stores can raise, from std::vector::at / std::unordered_map::at),
or undefined behavior (operator* on an empty std::optional, which the C++
standard leaves undefined: no exception, no defined result). -/
inductive CppOutcome (α : Type) where
  | ok (v : α)
  | outOfRangeThrown
  | undefinedBehavior
deriving DecidableEq

/-- Dense store backend: vector_store<T> holds std::vector<std::optional<T>>
(vector_store.hpp line 17), modelled as a list of optional values. -/
abbrev vector_store (T : Type) := List (Option T)

namespace vector_store

/-- Model of std::vector::resize(n): append value-initialized (empty) slots
when growing, truncate when shrinking. -/
def resize {T : Type} (s : vector_store T) (n : Nat) : vector_store T :=
  (s ++ List.replicate (n - s.length) none).take n

/-- vector_store::hasComponent (vector_store.hpp lines 47-53): out-of-range
ids report false, in-range ids report whether the slot holds a value. -/
def hasComponent {T : Type} (s : vector_store T) (id : EntityId) : Bool :=
  if s.length ≤ id then false else (s.getD id none).isSome

/-- vector_store::getSafe (vector_store.hpp lines 57-62): out-of-range ids
yield nullopt, in-range ids yield the slot contents. -/
def getSafe {T : Type} (s : vector_store T) (id : EntityId) : Option T :=
  if s.length ≤ id then none else s.getD id none

/-- vector_store::getUnsafe (vector_store.hpp lines 66-68) is
return *(elements.at(id)); — elements.at(id) throws std::out_of_range when
id is past the end, and dereferencing the optional held in an in-range slot
is undefined behavior when that slot is empty. -/
def getUnsafe {T : Type} (s : vector_store T) (id : EntityId) : CppOutcome T :=
  if s.length ≤ id then .outOfRangeThrown
  else
    match s.getD id none with
    | some v => .ok v
    | none => .undefinedBehavior

/-- vector_store::addComponent (vector_store.hpp lines 72-77): grow to
id + 1 slots when size ≤ id, then assign slot id. -/
def addComponent {T : Type} (s : vector_store T) (id : EntityId) (v : T) :
    vector_store T :=
  let s2 := if s.length ≤ id then resize s (id + 1) else s
  s2.set id (some v)

/-- vector_store::moveComponent (vector_store.hpp lines 81-86): grow to
id + 1 slots when size ≤ id, then elements.emplace(elements.begin() + id, v),
which INSERTS a new slot before position id, shifting all later slots up —
it does not assign slot id. -/
def moveComponent {T : Type} (s : vector_store T) (id : EntityId) (v : T) :
    vector_store T :=
  let s2 := if s.length ≤ id then resize s (id + 1) else s
  s2.insertIdx id (some v)

/-- vector_store::removeComponent (vector_store.hpp lines 91-96): no-op past
the end, otherwise empty slot id. -/
def removeComponent {T : Type} (s : vector_store T) (id : EntityId) :
    vector_store T :=
  if s.length ≤ id then s else s.set id none

/-- vector_store::resizeToFit (vector_store.hpp lines 38-40):
elements.resize(max(elements.size(), id + 1)) — grows, never shrinks. -/
def resizeToFit {T : Type} (s : vector_store T) (id : EntityId) :
    vector_store T :=
  resize s (max s.length (id + 1))

end vector_store

/-- Sparse store backend: unordered_map_store<T> holds
std::unordered_map<EntityId, T> (unordered_map_store.hpp line 21), modelled
as an association list whose keys stay unique because insertion only happens
after a failed lookup, mirroring std::unordered_map::emplace. -/
abbrev unordered_map_store (T : Type) := List (EntityId × T)

namespace unordered_map_store

/-- unordered_map_store::hasComponent (unordered_map_store.hpp lines 48-50):
map.contains(id). -/
def hasComponent {T : Type} (m : unordered_map_store T) (id : EntityId) :
    Bool :=
  (m.lookup id).isSome

/-- unordered_map_store::getSafe (unordered_map_store.hpp lines 54-60):
find, return the mapped value when found, nullopt otherwise. (The source
writes return *it; where it->second is the mapped value; *it is the
key-value pair, which would not even convert to std::optional<T> if this
template were ever instantiated — modelled as the evident intent
it->second.) -/
def getSafe {T : Type} (m : unordered_map_store T) (id : EntityId) :
    Option T :=
  m.lookup id

/-- unordered_map_store::getUnsafe (unordered_map_store.hpp lines 64-66):
map.at(id) — returns the mapped value, or throws std::out_of_range when the
key is absent. -/
def getUnsafe {T : Type} (m : unordered_map_store T) (id : EntityId) :
    CppOutcome T :=
  match m.lookup id with
  | some v => .ok v
  | none => .outOfRangeThrown

/-- unordered_map_store::addComponent (unordered_map_store.hpp lines 70-72):
map.emplace(id, comp) — inserts only when the key is ABSENT; when a value is
already present for id the call leaves the map unchanged. -/
def addComponent {T : Type} (m : unordered_map_store T) (id : EntityId)
    (v : T) : unordered_map_store T :=
  if (m.lookup id).isSome then m else (id, v) :: m

/-- unordered_map_store::moveComponent (unordered_map_store.hpp lines 76-78):
map.emplace(id, std::move(t2)) — same no-overwrite emplace semantics. -/
def moveComponent {T : Type} (m : unordered_map_store T) (id : EntityId)
    (v : T) : unordered_map_store T :=
  if (m.lookup id).isSome then m else (id, v) :: m

/-- unordered_map_store::removeComponent (unordered_map_store.hpp lines
83-85): map.erase(id). -/
def removeComponent {T : Type} (m : unordered_map_store T) (id : EntityId) :
    unordered_map_store T :=
  m.filter fun p => p.1 != id

/-- unordered_map_store::resizeToFit (unordered_map_store.hpp line 43):
does not do resizing. -/
def resizeToFit {T : Type} (m : unordered_map_store T) (_ : EntityId) :
    unordered_map_store T :=
  m

end unordered_map_store

/-- Concrete world instantiation used by the repository's own tests
(src/test/world.cpp line 8): world<vector_store<int>, vector_store<float>>.
int is modelled as Int; float values are also carried as Int, since no
verified property performs floating-point arithmetic — the float store only
ever stores, reports and erases values, for which the carrier is irrelevant.
The world privately inherits each store and adds the lastId counter
(world.hpp lines 18-19). -/
structure TestWorld where
  ints : vector_store Int
  floats : vector_store Int
  lastId : EntityId
deriving DecidableEq

namespace TestWorld

/-- Default-constructed world: empty stores, lastId = 0. -/
def init : TestWorld := ⟨[], [], 0⟩

/-- world::newEntity (world.hpp lines 28-31): resizeToFit(lastId) on every
store, then return lastId++ — the returned id is the pre-increment value. -/
def newEntity (w : TestWorld) : EntityId × TestWorld :=
  (w.lastId,
   { ints := vector_store.resizeToFit w.ints w.lastId
     floats := vector_store.resizeToFit w.floats w.lastId
     lastId := w.lastId + 1 })

/-- world::maxId (world.hpp line 39): return lastId + 1. -/
def maxId (w : TestWorld) : EntityId := w.lastId + 1

/-- Re-exported hasComponent<int> (world.hpp line 42 using-declaration,
dispatching to the int store's member). -/
def hasComponentInt (w : TestWorld) (id : EntityId) : Bool :=
  vector_store.hasComponent w.ints id

/-- Re-exported getSafe<int>. -/
def getSafeInt (w : TestWorld) (id : EntityId) : Option Int :=
  vector_store.getSafe w.ints id

/-- Re-exported getUnsafe<int>. -/
def getUnsafeInt (w : TestWorld) (id : EntityId) : CppOutcome Int :=
  vector_store.getUnsafe w.ints id

/-- Re-exported addComponent<int>. -/
def addComponentInt (w : TestWorld) (id : EntityId) (v : Int) : TestWorld :=
  { w with ints := vector_store.addComponent w.ints id v }

/-- Re-exported removeComponent<int>. -/
def removeComponentInt (w : TestWorld) (id : EntityId) : TestWorld :=
  { w with ints := vector_store.removeComponent w.ints id }

/-- Re-exported hasComponent<float>. -/
def hasComponentFloat (w : TestWorld) (id : EntityId) : Bool :=
  vector_store.hasComponent w.floats id

/-- Re-exported getSafe<float>. -/
def getSafeFloat (w : TestWorld) (id : EntityId) : Option Int :=
  vector_store.getSafe w.floats id

/-- Re-exported addComponent<float>. -/
def addComponentFloat (w : TestWorld) (id : EntityId) (v : Int) : TestWorld :=
  { w with floats := vector_store.addComponent w.floats id v }

/-- world::hasComponent<std::optional<int>> specialization (world.hpp lines
54-63): return true — an optional can always be answered. -/
def hasComponentOptInt (_ : TestWorld) (_ : EntityId) : Bool := true

/-- world::getUnsafe<std::optional<int>> specialization (world.hpp lines
65-71): return getSafe<int>(id); it never throws, so the outcome is
always ok. -/
def getUnsafeOptInt (w : TestWorld) (id : EntityId) : CppOutcome (Option Int) :=
  .ok (getSafeInt w id)

/-- world::setMapResult for result shape int (world.hpp lines 105-109):
unconditional addComponent<int>(id, r). -/
def setMapResultInt (w : TestWorld) (id : EntityId) (v : Int) : TestWorld :=
  addComponentInt w id v

/-- world::setMapResult for result shape float: unconditional
addComponent<float>(id, r). -/
def setMapResultFloat (w : TestWorld) (id : EntityId) (v : Int) : TestWorld :=
  addComponentFloat w id v

/-- world::setMapResult for result shape std::optional<int> (world.hpp lines
92-99): present → addComponent<int>(id, *opt); empty →
removeComponent<int>(id). -/
def setMapResultOptInt (w : TestWorld) (id : EntityId) :
    Option Int → TestWorld
  | some v => addComponentInt w id v
  | none => removeComponentInt w id

/-- Model of std::variant<std::optional<int>, float>: Sum with the left
alternative the optional<int> and the right alternative the float. -/
abbrev MapVariant := Sum (Option Int) Int

/-- world::setMapResultVariantDetail<Variant, std::optional<int>> (world.hpp
lines 157-168): if std::get_if<optional<int>> is non-null, apply
setMapResult<optional<int>>; otherwise do nothing. -/
def setMapResultVariantDetailOptInt (w : TestWorld) (id : EntityId)
    (v : MapVariant) : TestWorld :=
  match v with
  | .inl a => setMapResultOptInt w id a
  | .inr _ => w

/-- world::setMapResultVariantDetail<Variant, float>: if
std::get_if<float> is non-null, apply setMapResult<float>; otherwise do
nothing. -/
def setMapResultVariantDetailFloat (w : TestWorld) (id : EntityId)
    (v : MapVariant) : TestWorld :=
  match v with
  | .inl _ => w
  | .inr b => setMapResultFloat w id b

/-- world::setMapResult for the variant shape (world.hpp lines 130-142): a
fold expression runs setMapResultVariantDetail for every alternative in
declared order, each on the world state left by the previous one. -/
def setMapResultVar (w : TestWorld) (id : EntityId) (v : MapVariant) :
    TestWorld :=
  setMapResultVariantDetailFloat (setMapResultVariantDetailOptInt w id v) id v

end TestWorld

/-- Model of the variadic fold in world::hasAllComponents (world.hpp lines
73-80): (hasComponent<Elements>(i) && ...) — the conjunction over the pack,
true for the empty pack. The pack is modelled as a list of presence
predicates over an arbitrary world state type. -/
def hasAllComponents {σ : Type} (preds : List (σ → EntityId → Bool)) (w : σ)
    (id : EntityId) : Bool :=
  preds.all fun p => p w id

/-- Model of the loop in mapEntities (world.hpp lines 187-194 and 205-211):
ids run from 0 up to (excluding) n = w.maxId(); each id passing hasAll is
visited — f is invoked and, in the non-void overload, setMapResult applies
its result, both folded into the state transformer apply. lastId is never
written by any setMapResult path, so the bound n is constant through the
pass. The result pairs the final state with the trace of ids at which f was
invoked, in invocation order. -/
def mapEntitiesAux {σ : Type} (hasAll : σ → EntityId → Bool)
    (apply : σ → EntityId → σ) : Nat → σ → σ × List EntityId
  | 0, w => (w, [])
  | n + 1, w =>
      let p := mapEntitiesAux hasAll apply n w
      if hasAll p.1 n then (apply p.1 n, p.2 ++ [n]) else p

/-- World state after a mapEntities pass over ids 0..n-1. -/
def mapEntitiesRun {σ : Type} (hasAll : σ → EntityId → Bool)
    (apply : σ → EntityId → σ) (n : Nat) (w : σ) : σ :=
  (mapEntitiesAux hasAll apply n w).1

/-- Trace of ids at which the transform was invoked during a mapEntities
pass over ids 0..n-1, in invocation order. -/
def mapEntitiesTrace {σ : Type} (hasAll : σ → EntityId → Bool)
    (apply : σ → EntityId → σ) (n : Nat) (w : σ) : List EntityId :=
  (mapEntitiesAux hasAll apply n w).2

/-- Per-id body of mapEntities<int> with a transform returning
std::optional<int>: call f on getUnsafe<int>(i) and write the result back
through setMapResult<optional<int>>. The second match arm is unreachable in
the pass, which only applies the body after hasComponent<int> passed. -/
def applyOptIntMap (f : Int → Option Int) (w : TestWorld) (i : EntityId) :
    TestWorld :=
  match TestWorld.getUnsafeInt w i with
  | .ok v => TestWorld.setMapResultOptInt w i (f v)
  | _ => w

/-- mapEntities<int>(w, f) for a transform f returning std::optional<int>. -/
def mapEntitiesOptInt (f : Int → Option Int) (w : TestWorld) : TestWorld :=
  mapEntitiesRun (hasAllComponents [TestWorld.hasComponentInt])
    (applyOptIntMap f) (TestWorld.maxId w) w

/-- Replay of n successive newEntity() calls from a given world, collecting
the returned entity ids in call order. -/
def newEntities : Nat → TestWorld → TestWorld × List EntityId
  | 0, w => (w, [])
  | n + 1, w =>
      let p := newEntities n w
      let q := TestWorld.newEntity p.1
      (q.2, p.2 ++ [q.1])

/-- Unfolding of one loop iteration of mapEntities. -/
theorem mapEntitiesAux_succ {σ : Type} (hasAll : σ → EntityId → Bool)
    (apply : σ → EntityId → σ) (n : Nat) (w : σ) :
    mapEntitiesAux hasAll apply (n + 1) w =
      if hasAll (mapEntitiesAux hasAll apply n w).1 n then
        (apply (mapEntitiesAux hasAll apply n w).1 n,
         (mapEntitiesAux hasAll apply n w).2 ++ [n])
      else mapEntitiesAux hasAll apply n w :=
  rfl

/-- Traced ids lie below the loop bound. -/
theorem mapEntitiesAux_trace_lt {σ : Type} (hasAll : σ → EntityId → Bool)
    (apply : σ → EntityId → σ) (n : Nat) (w : σ) :
    ∀ x ∈ (mapEntitiesAux hasAll apply n w).2, x < n := by
  induction n with
  | zero => intro x hx; simp [mapEntitiesAux] at hx
  | succ n ih =>
      intro x hx
      rw [mapEntitiesAux_succ] at hx
      by_cases hc : hasAll (mapEntitiesAux hasAll apply n w).1 n = true
      · rw [if_pos hc] at hx
        rcases List.mem_append.mp hx with h1 | h1
        · exact Nat.lt_succ_of_lt (ih x h1)
        · rw [List.mem_singleton.mp h1]; exact Nat.lt_succ_self n
      · rw [if_neg (by simpa using hc)] at hx
        exact Nat.lt_succ_of_lt (ih x hx)

/-- The trace is strictly ascending: the loop walks ids upward and appends
each visited id once. -/
theorem mapEntitiesAux_trace_pairwise {σ : Type} (hasAll : σ → EntityId → Bool)
    (apply : σ → EntityId → σ) (n : Nat) (w : σ) :
    List.Pairwise (· < ·) (mapEntitiesAux hasAll apply n w).2 := by
  induction n with
  | zero => simp [mapEntitiesAux]
  | succ n ih =>
      rw [mapEntitiesAux_succ]
      by_cases hc : hasAll (mapEntitiesAux hasAll apply n w).1 n = true
      · rw [if_pos hc]
        refine List.pairwise_append.mpr ⟨ih, List.pairwise_singleton _ _, ?_⟩
        intro x hx y hy
        rw [List.mem_singleton.mp hy]
        exact mapEntitiesAux_trace_lt hasAll apply n w x hx
      · rw [if_neg (by simpa using hc)]
        exact ih

/-- An id is traced exactly when it is below the bound and passed the
presence filter evaluated on the state the pass had reached at its visit
(that state is the result of running the pass over all smaller ids). -/
theorem mapEntitiesAux_trace_mem {σ : Type} (hasAll : σ → EntityId → Bool)
    (apply : σ → EntityId → σ) (n : Nat) (w : σ) (i : EntityId) :
    i ∈ (mapEntitiesAux hasAll apply n w).2 ↔
      (i < n ∧ hasAll (mapEntitiesRun hasAll apply i w) i = true) := by
  induction n with
  | zero => simp [mapEntitiesAux]
  | succ n ih =>
      rw [mapEntitiesAux_succ]
      by_cases hc : hasAll (mapEntitiesAux hasAll apply n w).1 n = true
      · rw [if_pos hc]
        constructor
        · intro hx
          rcases List.mem_append.mp hx with h1 | h1
          · obtain ⟨hlt, hp⟩ := ih.mp h1
            exact ⟨Nat.lt_succ_of_lt hlt, hp⟩
          · rw [List.mem_singleton.mp h1]
            exact ⟨Nat.lt_succ_self n, hc⟩
        · rintro ⟨hlt, hp⟩
          rcases Nat.lt_succ_iff_lt_or_eq.mp hlt with h2 | h2
          · exact List.mem_append.mpr (Or.inl (ih.mpr ⟨h2, hp⟩))
          · exact List.mem_append.mpr (Or.inr (by rw [h2]; exact List.mem_singleton.mpr rfl))
      · rw [if_neg (by simpa using hc)]
        constructor
        · intro hx
          obtain ⟨hlt, hp⟩ := ih.mp hx
          exact ⟨Nat.lt_succ_of_lt hlt, hp⟩
        · rintro ⟨hlt, hp⟩
          rcases Nat.lt_succ_iff_lt_or_eq.mp hlt with h2 | h2
          · exact ih.mpr ⟨h2, hp⟩
          · subst h2; exact absurd hp hc

/-- C6: mapEntities invokes the transform exactly once for each entity id in
the iteration range that holds every required component as of that id's
visit, never invokes it for an id missing one, and visits ids in strictly
ascending order; the pass is a function of the initial world state and the
transform, hence deterministic. Stated over the generic loop (the C++
function is a template over the world, the filter pack and the transform):
the trace is strictly sorted, membership is equivalent to passing the filter
at visit time, and the invocation count at any id is one or zero
accordingly. -/
theorem C6_mapEntities_visits_exactly_filtered {σ : Type}
    (hasAll : σ → EntityId → Bool) (apply : σ → EntityId → σ)
    (n : Nat) (w : σ) (i : EntityId) :
    List.Pairwise (· < ·) (mapEntitiesTrace hasAll apply n w) ∧
    (i ∈ mapEntitiesTrace hasAll apply n w ↔
      (i < n ∧ hasAll (mapEntitiesRun hasAll apply i w) i = true)) ∧
    List.count i (mapEntitiesTrace hasAll apply n w) =
      (if i < n ∧ hasAll (mapEntitiesRun hasAll apply i w) i = true
       then 1 else 0) := by
  refine ⟨mapEntitiesAux_trace_pairwise hasAll apply n w,
    mapEntitiesAux_trace_mem hasAll apply n w i, ?_⟩
  have hnd : (mapEntitiesTrace hasAll apply n w).Nodup :=
    (mapEntitiesAux_trace_pairwise hasAll apply n w).imp Nat.ne_of_lt
  rw [List.count_eq_of_nodup hnd]
  by_cases hm : i ∈ mapEntitiesTrace hasAll apply n w
  · rw [if_pos hm, if_pos ((mapEntitiesAux_trace_mem hasAll apply n w i).mp hm)]
  · rw [if_neg hm,
      if_neg (fun hcond =>
        hm ((mapEntitiesAux_trace_mem hasAll apply n w i).mpr hcond))]

/-- With the empty filter pack, every id in the range is traced. -/
theorem mapEntitiesAux_trace_empty_filter {σ : Type}
    (apply : σ → EntityId → σ) (n : Nat) (w : σ) :
    (mapEntitiesAux (hasAllComponents ([] : List (σ → EntityId → Bool)))
      apply n w).2 = List.range n := by
  induction n with
  | zero => rfl
  | succ n ih =>
      have hc : hasAllComponents ([] : List (σ → EntityId → Bool))
          (mapEntitiesAux (hasAllComponents ([] : List (σ → EntityId → Bool)))
            apply n w).1 n = true := rfl
      rw [mapEntitiesAux_succ, if_pos hc, ih, List.range_succ]

/-- C10: hasAllComponents over the empty component pack is the empty
conjunction, hence true for every world state and id, and a mapEntities pass
with no required components invokes its transform at every id in the
iteration range — including ids holding no components at all. -/
theorem C10_empty_filter_visits_all {σ : Type}
    (apply : σ → EntityId → σ) (n : Nat) (w : σ) (id : EntityId) :
    hasAllComponents ([] : List (σ → EntityId → Bool)) w id = true ∧
    mapEntitiesTrace (hasAllComponents ([] : List (σ → EntityId → Bool)))
      apply n w = List.range n :=
  ⟨rfl, mapEntitiesAux_trace_empty_filter apply n w⟩

/-- Replaying n newEntity calls from a fresh world leaves lastId = n and
returns the ids 0, 1, ..., n-1 in order. -/
theorem newEntities_init_spec (n : Nat) :
    (newEntities n TestWorld.init).1.lastId = n ∧
    (newEntities n TestWorld.init).2 = List.range n := by
  induction n with
  | zero => exact ⟨rfl, rfl⟩
  | succ n ih =>
      obtain ⟨h1, h2⟩ := ih
      constructor
      · show (TestWorld.newEntity (newEntities n TestWorld.init).1).2.lastId = n + 1
        rw [TestWorld.newEntity, h1]
      · show (newEntities n TestWorld.init).2 ++
          [(TestWorld.newEntity (newEntities n TestWorld.init).1).1] =
          List.range (n + 1)
        rw [TestWorld.newEntity, h1, h2, List.range_succ]

/-- C4 counterexample: after one newEntity() call the only issued id is 0,
yet maxId() returns 2, so the iteration range 0 ≤ id < maxId() contains the
never-issued id 1 — maxId() is not an exclusive bound covering exactly the
issued ids. -/
theorem C4_counterexample_maxId_overshoots :
    (newEntities 1 TestWorld.init).2 = [0] ∧
    TestWorld.maxId (newEntities 1 TestWorld.init).1 = 2 ∧
    1 < TestWorld.maxId (newEntities 1 TestWorld.init).1 ∧
    1 ∉ (newEntities 1 TestWorld.init).2 := by
  decide

/-- C4 amended: newEntity returns lastId++ so n calls issue exactly the ids
0..n-1, but maxId() returns lastId + 1 = n + 1; iterating id from 0 up to
(but excluding) maxId() therefore visits every issued id plus exactly one
extra id, namely n, which was never issued. -/
theorem C4_amended_maxId_covers_issued_plus_one (n : Nat) :
    (newEntities n TestWorld.init).2 = List.range n ∧
    TestWorld.maxId (newEntities n TestWorld.init).1 = n + 1 ∧
    (∀ i : EntityId, i < TestWorld.maxId (newEntities n TestWorld.init).1 ↔
      (i ∈ (newEntities n TestWorld.init).2 ∨ i = n)) := by
  obtain ⟨h1, h2⟩ := newEntities_init_spec n
  have hmax : TestWorld.maxId (newEntities n TestWorld.init).1 = n + 1 := by
    rw [TestWorld.maxId, h1]
  refine ⟨h2, hmax, fun i => ?_⟩
  rw [hmax, h2, List.mem_range]
  exact Nat.lt_succ_iff_lt_or_eq

/-- C1: evaluation at the failing input. On the sparse backend addComponent
is map.emplace(id, comp), which does not overwrite an existing key: after
addComponent(0, 10) then addComponent(0, 20), getSafe(0) still returns 10.
The dense backend assigns the slot and does return 20 — matching the
contract (and world.hpp's own comment "add or replace"). -/
theorem C1_sparse_addComponent_does_not_overwrite :
    unordered_map_store.getSafe
      (unordered_map_store.addComponent
        (unordered_map_store.addComponent ([] : unordered_map_store Int) 0 10)
        0 20) 0 = some 10 ∧
    unordered_map_store.hasComponent
      (unordered_map_store.addComponent
        (unordered_map_store.addComponent ([] : unordered_map_store Int) 0 10)
        0 20) 0 = true ∧
    vector_store.getSafe
      (vector_store.addComponent
        (vector_store.addComponent ([] : vector_store Int) 0 10) 0 20) 0 =
      some 20 := by
  decide

/-- C2: evaluation at the failing input. Replaying the same two-operation
sequence addComponent(0, 10); addComponent(0, 20) on both backends makes the
observable queries disagree: the dense store reports getSafe(0) = 20, the
sparse store reports getSafe(0) = 10 (and getUnsafe differs likewise), so
the backends are not observationally equivalent. -/
theorem C2_backends_diverge_on_overwrite :
    vector_store.getSafe
      (vector_store.addComponent
        (vector_store.addComponent ([] : vector_store Int) 0 10) 0 20) 0 =
      some 20 ∧
    unordered_map_store.getSafe
      (unordered_map_store.addComponent
        (unordered_map_store.addComponent ([] : unordered_map_store Int) 0 10)
        0 20) 0 = some 10 ∧
    vector_store.getUnsafe
      (vector_store.addComponent
        (vector_store.addComponent ([] : vector_store Int) 0 10) 0 20) 0 =
      CppOutcome.ok 20 ∧
    unordered_map_store.getUnsafe
      (unordered_map_store.addComponent
        (unordered_map_store.addComponent ([] : unordered_map_store Int) 0 10)
        0 20) 0 = CppOutcome.ok 10 ∧
    (some (20 : Int)) ≠ some 10 := by
  decide

/-- C3: evaluation at the failing input. On the dense backend moveComponent
uses positional vector::emplace, which inserts a new slot at index id and
shifts every later slot up: starting from a store holding 10 at id 0,
moveComponent(0, 20) produces [20, 10] — entity 1 now holds 10 and the
store grew — whereas addComponent(0, 20) produces [20]. The two do not
leave the store in the same state, and another entity's association
changed. -/
theorem C3_moveComponent_shifts_instead_of_assigning :
    vector_store.moveComponent
      (vector_store.addComponent ([] : vector_store Int) 0 10) 0 20 =
      [some 20, some 10] ∧
    vector_store.addComponent
      (vector_store.addComponent ([] : vector_store Int) 0 10) 0 20 =
      [some 20] ∧
    vector_store.hasComponent
      (vector_store.moveComponent
        (vector_store.addComponent ([] : vector_store Int) 0 10) 0 20) 1 =
      true ∧
    vector_store.hasComponent
      (vector_store.addComponent
        (vector_store.addComponent ([] : vector_store Int) 0 10) 0 20) 1 =
      false := by
  decide

/-- C5 counterexample: on the dense backend, after addComponent(1, 10) the
id 0 is within capacity but holds no value; hasComponent(0) is false, yet
getUnsafe(0) does not raise a dedicated error — it dereferences an empty
std::optional, which is undefined behavior, not a loud precondition
failure. -/
theorem C5_counterexample_empty_slot_is_ub :
    vector_store.hasComponent
      (vector_store.addComponent ([] : vector_store Int) 1 10) 0 = false ∧
    vector_store.getUnsafe
      (vector_store.addComponent ([] : vector_store Int) 1 10) 0 =
      CppOutcome.undefinedBehavior := by
  decide

/-- C5 amended: getUnsafe returns the stored value whenever one is present.
When absent, the sparse backend always throws std::out_of_range (a dedicated
error); the dense backend throws std::out_of_range only when id is beyond
the allocated capacity — for an id within capacity whose slot is empty it
dereferences an empty std::optional, which is undefined behavior rather
than a dedicated error. -/
theorem C5_amended_getUnsafe_characterization {T : Type}
    (m : unordered_map_store T) (s : vector_store T) (id : EntityId) :
    unordered_map_store.getUnsafe m id =
      (match unordered_map_store.getSafe m id with
       | some v => CppOutcome.ok v
       | none => CppOutcome.outOfRangeThrown) ∧
    vector_store.getUnsafe s id =
      (if s.length ≤ id then CppOutcome.outOfRangeThrown
       else
        match vector_store.getSafe s id with
        | some v => CppOutcome.ok v
        | none => CppOutcome.undefinedBehavior) := by
  constructor
  · rfl
  · by_cases hc : s.length ≤ id
    · simp [vector_store.getUnsafe, vector_store.getSafe, hc]
    · simp [vector_store.getUnsafe, vector_store.getSafe, hc]

/-- C7: the optional<C> write-back rule is delete-if-empty — a populated
optional calls addComponent<C>(id, *value) and an empty optional calls
removeComponent<C>(id) — and consequently, for the world of the repository's
tests where entity 0 (the first id newEntity issues) holds int = 10, a
mapEntities<int> pass whose transform returns an empty optional<int> leaves
hasComponent<int> false for that entity. -/
theorem C7_optional_result_delete_if_empty :
    (∀ (w : TestWorld) (id : EntityId) (v : Int),
      TestWorld.setMapResultOptInt w id (some v) =
        TestWorld.addComponentInt w id v) ∧
    (∀ (w : TestWorld) (id : EntityId),
      TestWorld.setMapResultOptInt w id none =
        TestWorld.removeComponentInt w id) ∧
    TestWorld.hasComponentInt
      (mapEntitiesOptInt (fun _ => none)
        (TestWorld.addComponentInt (TestWorld.newEntity TestWorld.init).2
          (TestWorld.newEntity TestWorld.init).1 10))
      (TestWorld.newEntity TestWorld.init).1 = false := by
  refine ⟨fun w id v => rfl, fun w id => rfl, ?_⟩
  decide

/-- C8: the variant write-back applies exactly the rule of the populated
alternative and leaves every store the populated alternative does not
target unchanged (as well as the entity counter): a populated
optional<int> alternative acts as setMapResult<optional<int>> and preserves
the float store, a populated float alternative acts as setMapResult<float>
and preserves the int store. -/
theorem C8_variant_writeback_exclusive (w : TestWorld) (id : EntityId) :
    (∀ a : Option Int,
      TestWorld.setMapResultVar w id (Sum.inl a) =
        TestWorld.setMapResultOptInt w id a ∧
      (TestWorld.setMapResultVar w id (Sum.inl a)).floats = w.floats ∧
      (TestWorld.setMapResultVar w id (Sum.inl a)).lastId = w.lastId) ∧
    (∀ b : Int,
      TestWorld.setMapResultVar w id (Sum.inr b) =
        TestWorld.setMapResultFloat w id b ∧
      (TestWorld.setMapResultVar w id (Sum.inr b)).ints = w.ints ∧
      (TestWorld.setMapResultVar w id (Sum.inr b)).lastId = w.lastId) := by
  constructor
  · intro a
    cases a with
    | some v => exact ⟨rfl, rfl, rfl⟩
    | none => exact ⟨rfl, rfl, rfl⟩
  · intro b
    exact ⟨rfl, rfl, rfl⟩

/-- C9: requesting optional<int> as a pseudo-component never fails:
hasComponent<optional<int>> answers true for every world and id, and
getUnsafe<optional<int>>(id) returns — without throwing — exactly the value
of getSafe<int>(id). -/
theorem C9_optional_pseudocomponent_total (w : TestWorld) (id : EntityId) :
    TestWorld.hasComponentOptInt w id = true ∧
    TestWorld.getUnsafeOptInt w id =
      CppOutcome.ok (TestWorld.getSafeInt w id) :=
  ⟨rfl, rfl⟩

end fecs
